import Mathlib

/-
Verification development for the study-buddy spaced-repetition tracker.

The frontend screens under src/frontend/app hold the core logic that is
embedded here:
 - add-topic.tsx: the fixed revision-day schedule [2, 7, 14] and the
   notification-scheduling loop (`scheduleNotifications`), plus the
   topic-creation validation (`addTopic`).
 - index.tsx: aggregation of today/upcoming revision records
   (`fetchRevisions`), calendar marker construction (`markedDates`),
   day selection (`onDayPress`), and `markAsCompleted`.
 - edit-topic/[id].tsx: topic update validation (`updateTopic`),
   per-topic status color (`getRevisionStatusColor`) and the
   next-revision helper (`getNextRevision`).
 - the subjects screen: subject creation validation (`addSubject`).

The backend store (checkpoint creation on POST /api/topics, the
today/upcoming/past partition behind /api/revisions/*, and the
complete-revision endpoint) is not part of the frontend sources; those
operations are modelled from the spec, and each such definition says so
in its doc comment.

Calendar dates are modelled two ways, matching the two uses in the code:
as opaque `yyyy-MM-dd` strings where the code only compares them for
equality (calendar keys, record filters), and as natural numbers where
the code does arithmetic or ordering on them (day addition in the
schedule, `new Date(x).getTime()` comparisons, minute-level timestamps
for notification triggers).
-/

namespace StudyBuddy

/-! ## Data model -/

/-- A flattened revision record as served to the home screen
(`interface Revision` in index.tsx). -/
structure Revision where
  id : String
  topic_name : String
  subject_name : String
  subject_id : String
  notes : String
  day_number : Nat
  revision_date : String
deriving DecidableEq

/-- One entry of `Topic.revision_dates` in edit-topic/[id].tsx.  The date
is the timestamp value that `new Date(rd.date).getTime()` yields, so the
comparator's ordering is the numeric order. -/
structure RevisionDate where
  date : Nat
  day_number : Nat
  completed : Bool
deriving DecidableEq

/-- A revision checkpoint of a stored topic: day offset, absolute date
(in calendar days), completion flag. -/
structure Checkpoint where
  day_number : Nat
  date : Nat
  completed : Bool
deriving DecidableEq

/-! ## ScheduleGenerator -/

/-- The fixed revision-day offsets, `const revisionDays = [2, 7, 14]` in
add-topic.tsx. -/
def revisionDays : List Nat := [2, 7, 14]

/-- Modelled from the spec: the backend's checkpoint creation on topic
creation is not under src/.  Per the spec, `generate(creationDate)`
yields one checkpoint per day offset 2, 7, 14, with date equal to the
creation date plus the offset (calendar-day addition) and `completed`
false.  The schedule preview in add-topic.tsx computes the same dates
with `addDays(today, day)`. -/
def generate (creationDate : Nat) : List Checkpoint :=
  revisionDays.map (fun d => { day_number := d, date := creationDate + d, completed := false })

/-! ## Notification scheduling (add-topic.tsx, scheduleNotifications) -/

/-- Timestamps for notification triggers are minutes since an epoch. -/
def minutesPerDay : Nat := 1440

/-- `addDays(now, d)` from date-fns on a minute timestamp. -/
def addDaysMin (t : Nat) (d : Nat) : Nat := t + d * minutesPerDay

/-- `revisionDate.setHours(9, 0, 0, 0)`: keep the calendar day of `t`,
set the time of day to 09:00. -/
def setHours9 (t : Nat) : Nat := (t / minutesPerDay) * minutesPerDay + 9 * 60

/-- One call to `Notifications.scheduleNotificationAsync`: content title
and body, and the trigger date. -/
structure NotifCall where
  title : String
  body : String
  triggerDate : Nat
deriving DecidableEq

/-- `scheduleNotifications(topicName, subjectName)` from add-topic.tsx,
with the ambient platform and clock made explicit.  On web it returns no
calls; otherwise, for each revision day it computes the 9 AM trigger on
the day `now + day` and emits the call only when that trigger is
strictly in the future. -/
def scheduleNotifications (web : Bool) (topicName subjectName : String) (now : Nat) :
    List NotifCall :=
  if web then []
  else
    revisionDays.filterMap (fun day =>
      let revisionDate := setHours9 (addDaysMin now day)
      if revisionDate > now then
        some { title := "Time to revise: " ++ topicName,
               body := "Day " ++ toString day ++ " revision for " ++ subjectName,
               triggerDate := revisionDate }
      else none)

/-! ## RevisionStatusEngine (edit-topic/[id].tsx) -/

/-- `getRevisionStatusColor(revisionDates)`: green when all 3 done,
orange when at least one done, blue otherwise. -/
def getRevisionStatusColor (revisionDates : List RevisionDate) : String :=
  let completed := (revisionDates.filter (fun rd => rd.completed)).length
  if completed == 3 then "#4ade80"
  else if completed ≥ 1 then "#f59e0b"
  else "#3b82f6"

/-- `getNextRevision(revisionDates)`: the incomplete checkpoint with the
earliest date, or null when none is incomplete.  The source sorts the
incomplete entries by `new Date(a.date).getTime() - new Date(b.date).getTime()`
and takes index 0. -/
def getNextRevision (revisionDates : List RevisionDate) : Option RevisionDate :=
  let incomplete := revisionDates.filter (fun rd => !rd.completed)
  if incomplete.isEmpty then none
  else (incomplete.mergeSort (fun a b => a.date ≤ b.date)).head?

/-- A topic as the completion endpoint sees it: its checkpoint list. -/
structure Topic where
  checkpoints : List Checkpoint
deriving DecidableEq

/-- Failure of the completion operation. -/
inductive MarkError where
  | InvalidCheckpoint
deriving DecidableEq

/-- Modelled from the spec: the backend handler behind
`POST /api/topics/complete-revision` (called by `markAsCompleted` in
index.tsx) is not under src/.  Per the spec, it fails with
`InvalidCheckpoint` when no checkpoint of the topic carries the given
day offset, and otherwise sets that checkpoint's completed flag to
true. -/
def markCompleted (t : Topic) (dayOffset : Nat) : Except MarkError Topic :=
  if t.checkpoints.any (fun c => c.day_number == dayOffset) then
    Except.ok { checkpoints :=
      t.checkpoints.map (fun c =>
        if c.day_number == dayOffset then { c with completed := true } else c) }
  else
    Except.error MarkError.InvalidCheckpoint

/-! ## RevisionAggregator -/

/-- A topic together with its resolved subject context, as the
aggregation endpoints join it. -/
structure TopicCtx where
  topic_id : String
  topic_name : String
  subject_id : String
  subject_name : String
  notes : String
  checkpoints : List Checkpoint
deriving DecidableEq

/-- The projection of one checkpoint of a topic to a flattened record. -/
structure AggRecord where
  topic_id : String
  topic_name : String
  subject_id : String
  subject_name : String
  notes : String
  day_number : Nat
  date : Nat
  completed : Bool
deriving DecidableEq

/-- Join one checkpoint to its owning topic and subject. -/
def recordOf (t : TopicCtx) (c : Checkpoint) : AggRecord :=
  { topic_id := t.topic_id, topic_name := t.topic_name,
    subject_id := t.subject_id, subject_name := t.subject_name,
    notes := t.notes, day_number := c.day_number, date := c.date,
    completed := c.completed }

/-- Modelled from the spec: the backend's `/api/revisions/today`
partition is not under src/.  Every checkpoint whose date equals now's
calendar date, across all topics, regardless of completion. -/
def todayRecords (topics : List TopicCtx) (now : Nat) : List AggRecord :=
  topics.flatMap (fun t =>
    (t.checkpoints.filter (fun c => c.date == now)).map (recordOf t))

/-- Modelled from the spec: the backend's `/api/revisions/upcoming`
partition is not under src/.  Every checkpoint whose date is strictly
after now. -/
def upcomingRecords (topics : List TopicCtx) (now : Nat) : List AggRecord :=
  topics.flatMap (fun t =>
    (t.checkpoints.filter (fun c => c.date > now)).map (recordOf t))

/-- Modelled from the spec: the past partition (checkpoints dated
strictly before now), the complement of today and upcoming. -/
def pastRecords (topics : List TopicCtx) (now : Nat) : List AggRecord :=
  topics.flatMap (fun t =>
    (t.checkpoints.filter (fun c => c.date < now)).map (recordOf t))

/-- The unfiltered union: every checkpoint of every topic, projected. -/
def allRecords (topics : List TopicCtx) : List AggRecord :=
  topics.flatMap (fun t => t.checkpoints.map (recordOf t))

/-- `const combined = [...todayData, ...upcomingData]` from
`fetchRevisions` in index.tsx. -/
def combinedRevisions (todayData upcomingData : List Revision) : List Revision :=
  todayData ++ upcomingData

/-- The exact-date filter used in `onDayPress` (and for the initial
selected-date list in `fetchRevisions`):
`allRevisions.filter(r => r.revision_date === day.dateString)`. -/
def revisionsForDate (allRevisions : List Revision) (dateString : String) : List Revision :=
  allRevisions.filter (fun r => r.revision_date == dateString)

/-! ## CalendarIndex (index.tsx, markedDates) -/

/-- One value of the `marks` object built by `markedDates`.  `Option`
fields model JS keys that may be absent. -/
structure Marker where
  marked : Option Bool := none
  dotColor : Option String := none
  selected : Option Bool := none
  selectedColor : Option String := none
  todayBorder : Bool := false
deriving DecidableEq

/-- The first loop of `markedDates`: every date occurring in
`allRevisions` (a key of `dateCounts`) gets a marker with
`marked: true`, a dot color depending on whether it is today, and the
selected fields when it is the selected date.  The map is modelled by
its lookup function. -/
def revisionMarks (allRevisions : List Revision) (selectedDate todayStr : String) :
    String → Option Marker :=
  fun d =>
    if d ∈ allRevisions.map (fun r => r.revision_date) then
      some { marked := some true,
             dotColor := some (if d = todayStr then "#4ade80" else "#3b82f6"),
             selected := if d = selectedDate then some true else none,
             selectedColor := if d = selectedDate then some "#3b82f6" else none }
    else none

/-- The "always mark selected date" step: synthesize an entry when the
selected date has none, otherwise set its selected fields. -/
def withSelectedMark (marks : String → Option Marker) (selectedDate : String) :
    String → Option Marker :=
  fun d =>
    if d = selectedDate then
      some (match marks selectedDate with
            | some mk => { mk with selected := some true, selectedColor := some "#3b82f6" }
            | none => { selected := some true, selectedColor := some "#3b82f6" })
    else marks d

/-- The "mark today" step: synthesize `{marked: false}` when today has
no entry, then set today's border style. -/
def withTodayMark (marks : String → Option Marker) (todayStr : String) :
    String → Option Marker :=
  fun d =>
    if d = todayStr then
      some (match marks todayStr with
            | some mk => { mk with todayBorder := true }
            | none => { marked := some false, todayBorder := true })
    else marks d

/-- `markedDates` from index.tsx: revision markers, then the selected
date, then today. -/
def markedDates (allRevisions : List Revision) (selectedDate todayStr : String) :
    String → Option Marker :=
  withTodayMark (withSelectedMark (revisionMarks allRevisions selectedDate todayStr) selectedDate)
    todayStr

/-- The initial selection state: `useState(format(new Date(), 'yyyy-MM-dd'))`,
i.e. today's date string. -/
def initialSelectedDate (todayStr : String) : String := todayStr

/-- The selection transition in `onDayPress`:
`setSelectedDate(day.dateString)`. -/
def selectDate (_selectedDate newDate : String) : String := newDate

/-! ## Form validation (subjects screen, add-topic.tsx, edit-topic/[id].tsx) -/

/-- JavaScript `String.prototype.trim`: strip leading and trailing
whitespace. -/
def jsTrim (s : String) : String :=
  String.mk (((s.data.dropWhile Char.isWhitespace).reverse.dropWhile Char.isWhitespace).reverse)

/-- Outcome of a submit handler: either a locally handled validation
error (an alert, no request sent) or the network request payload. -/
inductive SubmitOutcome (σ : Type) where
  | validationError (message : String)
  | request (payload : σ)
deriving DecidableEq

/-- The requests a submit handler sends to the store: none on a
validation error. -/
def networkRequests {σ : Type} : SubmitOutcome σ → List σ
  | SubmitOutcome.validationError _ => []
  | SubmitOutcome.request p => [p]

/-- `addSubject` from the subjects screen: rejects a blank name before
any fetch, otherwise posts the trimmed name. -/
def addSubject (newSubjectName : String) : SubmitOutcome String :=
  if jsTrim newSubjectName = "" then
    SubmitOutcome.validationError "Please enter a subject name"
  else
    SubmitOutcome.request (jsTrim newSubjectName)

/-- `addTopic` from add-topic.tsx: rejects a missing subject, then a
blank topic name, before any fetch; otherwise posts subject id, trimmed
name and trimmed notes. -/
def addTopic (selectedSubjectId topicName notes : String) :
    SubmitOutcome (String × String × String) :=
  if selectedSubjectId = "" then
    SubmitOutcome.validationError "Please select a subject"
  else if jsTrim topicName = "" then
    SubmitOutcome.validationError "Please enter a topic name"
  else
    SubmitOutcome.request (selectedSubjectId, jsTrim topicName, jsTrim notes)

/-- `updateTopic` from edit-topic/[id].tsx: rejects a blank topic name
before any fetch; otherwise puts the trimmed name and notes. -/
def updateTopic (topicName notes : String) : SubmitOutcome (String × String) :=
  if jsTrim topicName = "" then
    SubmitOutcome.validationError "Please enter a topic name"
  else
    SubmitOutcome.request (jsTrim topicName, jsTrim notes)

/-! ## Sample data for concrete scenarios -/

/-- Two topics with a checkpoint on 2024-01-03: topic one's record. -/
def rec20240103a : Revision :=
  { id := "t1", topic_name := "Bowel Obstruction", subject_name := "Surgery",
    subject_id := "s1", notes := "", day_number := 2, revision_date := "2024-01-03" }

/-- Two topics with a checkpoint on 2024-01-03: topic two's record. -/
def rec20240103b : Revision :=
  { id := "t2", topic_name := "Asthma", subject_name := "Medicine",
    subject_id := "s2", notes := "", day_number := 7, revision_date := "2024-01-03" }

/-- A record of topic two on a different date. -/
def rec20240108 : Revision :=
  { id := "t2", topic_name := "Asthma", subject_name := "Medicine",
    subject_id := "s2", notes := "", day_number := 2, revision_date := "2024-01-08" }

/-! ## Theorems -/

/-- Claim C1: for every topic creation date, the generated schedule has
exactly three checkpoints, with day offsets 2, 7 and 14, dates equal to
the creation date plus 2, 7 and 14 days, and every completed flag
initially false. -/
theorem C1_schedule_generation (d : Nat) :
    (generate d).length = 3 ∧
    (generate d).map (fun c => c.day_number) = [2, 7, 14] ∧
    (generate d).map (fun c => c.date) = [d + 2, d + 7, d + 14] ∧
    ∀ c ∈ generate d, c.completed = false := by
  refine ⟨rfl, rfl, rfl, ?_⟩
  intro c hc
  simp only [generate, revisionDays, List.map_cons, List.map_nil, List.mem_cons,
    List.not_mem_nil, or_false] at hc
  rcases hc with h | h | h <;> subst h <;> rfl

/-- Claim C1, instantiated at creation date 100. -/
theorem C1_schedule_generation_witness :
    (generate 100).length = 3 ∧
    (generate 100).map (fun c => c.day_number) = [2, 7, 14] ∧
    (generate 100).map (fun c => c.date) = [100 + 2, 100 + 7, 100 + 14] ∧
    ∀ c ∈ generate 100, c.completed = false :=
  C1_schedule_generation 100

/-- Claim C2: over exactly three checkpoints, the status color is the
complete color iff all three are completed, the none color iff zero are
completed, and the partial color iff at least one but not all are
completed; the trichotomy holds for every combination of flags. -/
theorem C2_status_trichotomy (rds : List RevisionDate) (h3 : rds.length = 3) :
    (getRevisionStatusColor rds = "#4ade80" ↔ ∀ rd ∈ rds, rd.completed = true) ∧
    (getRevisionStatusColor rds = "#3b82f6" ↔ ∀ rd ∈ rds, rd.completed = false) ∧
    (getRevisionStatusColor rds = "#f59e0b" ↔
      ((∃ rd ∈ rds, rd.completed = true) ∧ (∃ rd ∈ rds, rd.completed = false))) := by
  obtain ⟨a, b, c, rfl⟩ := List.length_eq_three.mp h3
  rcases a with ⟨da, na, ca⟩
  rcases b with ⟨db, nb, cb⟩
  rcases c with ⟨dc, nc, cc⟩
  cases ca <;> cases cb <;> cases cc <;>
    simp [getRevisionStatusColor, List.filter]

/-- Claim C2, instantiated at one partially completed combination. -/
theorem C2_status_trichotomy_witness :
    (getRevisionStatusColor [⟨2, 2, true⟩, ⟨7, 7, false⟩, ⟨14, 14, false⟩] = "#4ade80" ↔
      ∀ rd ∈ [(⟨2, 2, true⟩ : RevisionDate), ⟨7, 7, false⟩, ⟨14, 14, false⟩],
        rd.completed = true) ∧
    (getRevisionStatusColor [⟨2, 2, true⟩, ⟨7, 7, false⟩, ⟨14, 14, false⟩] = "#3b82f6" ↔
      ∀ rd ∈ [(⟨2, 2, true⟩ : RevisionDate), ⟨7, 7, false⟩, ⟨14, 14, false⟩],
        rd.completed = false) ∧
    (getRevisionStatusColor [⟨2, 2, true⟩, ⟨7, 7, false⟩, ⟨14, 14, false⟩] = "#f59e0b" ↔
      ((∃ rd ∈ [(⟨2, 2, true⟩ : RevisionDate), ⟨7, 7, false⟩, ⟨14, 14, false⟩],
          rd.completed = true) ∧
        (∃ rd ∈ [(⟨2, 2, true⟩ : RevisionDate), ⟨7, 7, false⟩, ⟨14, 14, false⟩],
          rd.completed = false))) :=
  C2_status_trichotomy [⟨2, 2, true⟩, ⟨7, 7, false⟩, ⟨14, 14, false⟩] (by decide)

/-- Claim C5: the selected-date list is the exact-date filter of the
combined today-plus-upcoming record set, and in the two-topic scenario
on 2024-01-03 it returns exactly the two records of the two topics. -/
theorem C5_forDate_exact_filter :
    (∀ (todayData upcomingData : List Revision) (d : String) (r : Revision),
      r ∈ revisionsForDate (combinedRevisions todayData upcomingData) d ↔
        ((r ∈ todayData ∨ r ∈ upcomingData) ∧ r.revision_date = d)) ∧
    revisionsForDate (combinedRevisions [rec20240103a] [rec20240103b, rec20240108])
        "2024-01-03" = [rec20240103a, rec20240103b] := by
  constructor
  · intro todayData upcomingData d r
    simp [revisionsForDate, combinedRevisions, List.mem_filter, List.mem_append]
    tauto
  · decide

/-- Claim C5, instantiated at the two-topic scenario record. -/
theorem C5_forDate_exact_filter_witness :
    (rec20240103a ∈ revisionsForDate
        (combinedRevisions [rec20240103a] [rec20240103b, rec20240108]) "2024-01-03" ↔
      ((rec20240103a ∈ [rec20240103a] ∨ rec20240103a ∈ [rec20240103b, rec20240108]) ∧
        rec20240103a.revision_date = "2024-01-03")) ∧
    revisionsForDate (combinedRevisions [rec20240103a] [rec20240103b, rec20240108])
      "2024-01-03" = [rec20240103a, rec20240103b] :=
  ⟨C5_forDate_exact_filter.1 [rec20240103a] [rec20240103b, rec20240108] "2024-01-03"
    rec20240103a, C5_forDate_exact_filter.2⟩

/-- Claim C8: a submit with an empty or whitespace-only name is turned
into a local validation error by every create/update handler, and no
network request is sent. -/
theorem C8_blank_name_rejected (name : String)
    (h : ∀ ch ∈ name.data, ch.isWhitespace = true) :
    addSubject name = SubmitOutcome.validationError "Please enter a subject name" ∧
    networkRequests (addSubject name) = [] ∧
    (∀ selectedSubjectId notes,
      (∃ msg, addTopic selectedSubjectId name notes = SubmitOutcome.validationError msg) ∧
      networkRequests (addTopic selectedSubjectId name notes) = []) ∧
    (∀ notes,
      updateTopic name notes = SubmitOutcome.validationError "Please enter a topic name" ∧
      networkRequests (updateTopic name notes) = []) := by
  have htrim : jsTrim name = "" := by
    have h1 : name.data.dropWhile Char.isWhitespace = [] := List.dropWhile_eq_nil_iff.mpr h
    simp [jsTrim, h1]
  refine ⟨by simp [addSubject, htrim], by simp [addSubject, htrim, networkRequests], ?_, ?_⟩
  · intro selectedSubjectId notes
    by_cases hsid : selectedSubjectId = "" <;>
      simp [addTopic, htrim, hsid, networkRequests]
  · intro notes
    simp [updateTopic, htrim, networkRequests]

/-- Claim C8, instantiated at the whitespace-only name of two spaces. -/
theorem C8_blank_name_rejected_witness :
    addSubject "  " = SubmitOutcome.validationError "Please enter a subject name" ∧
    networkRequests (addSubject "  ") = [] ∧
    (∀ selectedSubjectId notes,
      (∃ msg, addTopic selectedSubjectId "  " notes = SubmitOutcome.validationError msg) ∧
      networkRequests (addTopic selectedSubjectId "  " notes) = []) ∧
    (∀ notes,
      updateTopic "  " notes = SubmitOutcome.validationError "Please enter a topic name" ∧
      networkRequests (updateTopic "  " notes) = []) :=
  C8_blank_name_rejected "  " (by decide)

/-- Claim C9: at topic creation (off web), the scheduling loop emits
exactly one call per revision checkpoint, three in all, each carrying
the title, body and 9 AM trigger date for its day offset, and every
emitted call's trigger date is strictly in the future; a checkpoint
whose trigger were not strictly future would be skipped by the guard. -/
theorem C9_notifications_per_checkpoint (topicName subjectName : String) (now : Nat) :
    scheduleNotifications false topicName subjectName now =
      [{ title := "Time to revise: " ++ topicName,
         body := "Day 2 revision for " ++ subjectName,
         triggerDate := setHours9 (addDaysMin now 2) },
       { title := "Time to revise: " ++ topicName,
         body := "Day 7 revision for " ++ subjectName,
         triggerDate := setHours9 (addDaysMin now 7) },
       { title := "Time to revise: " ++ topicName,
         body := "Day 14 revision for " ++ subjectName,
         triggerDate := setHours9 (addDaysMin now 14) }] ∧
    (scheduleNotifications false topicName subjectName now).length = 3 ∧
    (∀ call ∈ scheduleNotifications false topicName subjectName now,
      call.triggerDate > now) := by
  have key : ∀ d : Nat, 1 ≤ d → now < setHours9 (addDaysMin now d) := by
    intro d hd
    have e1 := Nat.div_add_mod (now + d * 1440) 1440
    have e2 : (now + d * 1440) % 1440 < 1440 := Nat.mod_lt _ (by norm_num)
    simp only [setHours9, addDaysMin, minutesPerDay]
    omega
  have k2 := key 2 (by norm_num)
  have k7 := key 7 (by norm_num)
  have k14 := key 14 (by norm_num)
  have heq : scheduleNotifications false topicName subjectName now =
      [{ title := "Time to revise: " ++ topicName,
         body := "Day 2 revision for " ++ subjectName,
         triggerDate := setHours9 (addDaysMin now 2) },
       { title := "Time to revise: " ++ topicName,
         body := "Day 7 revision for " ++ subjectName,
         triggerDate := setHours9 (addDaysMin now 7) },
       { title := "Time to revise: " ++ topicName,
         body := "Day 14 revision for " ++ subjectName,
         triggerDate := setHours9 (addDaysMin now 14) }] := by
    simp [scheduleNotifications, revisionDays, k2, k7, k14]
    exact ⟨congrArg (· ++ subjectName) (by decide), congrArg (· ++ subjectName) (by decide),
      congrArg (· ++ subjectName) (by decide)⟩
  refine ⟨heq, by rw [heq]; rfl, ?_⟩
  intro call hcall
  rw [heq] at hcall
  simp only [List.mem_cons, List.not_mem_nil, or_false] at hcall
  rcases hcall with h | h | h
  · rw [h]; exact k2
  · rw [h]; exact k7
  · rw [h]; exact k14

/-- Claim C9, instantiated at a concrete topic, subject and clock. -/
theorem C9_notifications_per_checkpoint_witness :
    scheduleNotifications false "Asthma" "Medicine" 10000 =
      [{ title := "Time to revise: " ++ "Asthma",
         body := "Day 2 revision for " ++ "Medicine",
         triggerDate := setHours9 (addDaysMin 10000 2) },
       { title := "Time to revise: " ++ "Asthma",
         body := "Day 7 revision for " ++ "Medicine",
         triggerDate := setHours9 (addDaysMin 10000 7) },
       { title := "Time to revise: " ++ "Asthma",
         body := "Day 14 revision for " ++ "Medicine",
         triggerDate := setHours9 (addDaysMin 10000 14) }] ∧
    (scheduleNotifications false "Asthma" "Medicine" 10000).length = 3 ∧
    (∀ call ∈ scheduleNotifications false "Asthma" "Medicine" 10000,
      call.triggerDate > 10000) :=
  C9_notifications_per_checkpoint "Asthma" "Medicine" 10000

/-- Claim C10: the next-revision helper returns null exactly when every
checkpoint is completed, and otherwise an incomplete checkpoint whose
date is minimal among the incomplete ones. -/
theorem C10_next_revision_minimal (rds : List RevisionDate) :
    (getNextRevision rds = none ↔ ∀ rd ∈ rds, rd.completed = true) ∧
    (∀ r, getNextRevision rds = some r →
      r ∈ rds ∧ r.completed = false ∧
      ∀ rd ∈ rds, rd.completed = false → r.date ≤ rd.date) := by
  constructor
  · constructor
    · intro h rd hrd
      by_cases he : (rds.filter (fun rd => !rd.completed)).isEmpty
      · have hnil : rds.filter (fun rd => !rd.completed) = [] := by
          simpa [List.isEmpty_iff] using he
        have := List.filter_eq_nil_iff.mp hnil rd hrd
        simpa using this
      · exfalso
        unfold getNextRevision at h
        rw [if_neg he] at h
        have hperm := List.mergeSort_perm (rds.filter (fun rd => !rd.completed))
          (fun a b => a.date ≤ b.date)
        cases hms : (rds.filter (fun rd => !rd.completed)).mergeSort
            (fun a b => a.date ≤ b.date) with
        | nil =>
          rw [hms] at hperm
          exact he (by simp [List.isEmpty_iff, hperm.symm.eq_nil])
        | cons x xs =>
          rw [hms] at h
          simp at h
    · intro h
      have hnil : rds.filter (fun rd => !rd.completed) = [] :=
        List.filter_eq_nil_iff.mpr (by intro a ha; simp [h a ha])
      unfold getNextRevision
      simp [hnil]
  · intro r hr
    unfold getNextRevision at hr
    by_cases he : (rds.filter (fun rd => !rd.completed)).isEmpty
    · rw [if_pos he] at hr
      simp at hr
    · rw [if_neg he] at hr
      obtain ⟨tl, hms⟩ : ∃ tl, (rds.filter (fun rd => !rd.completed)).mergeSort
          (fun a b => a.date ≤ b.date) = r :: tl := by
        cases hms : (rds.filter (fun rd => !rd.completed)).mergeSort
            (fun a b => a.date ≤ b.date) with
        | nil => rw [hms] at hr; simp at hr
        | cons x xs =>
          rw [hms] at hr
          simp only [List.head?_cons, Option.some.injEq] at hr
          exact ⟨xs, by rw [hr]⟩
      have hperm := List.mergeSort_perm (rds.filter (fun rd => !rd.completed))
        (fun a b => a.date ≤ b.date)
      rw [hms] at hperm
      have hmem : r ∈ rds.filter (fun rd => !rd.completed) :=
        hperm.mem_iff.mp (List.mem_cons_self r tl)
      have hmem' := List.mem_filter.mp hmem
      refine ⟨hmem'.1, by simpa using hmem'.2, ?_⟩
      have hs := @List.sorted_mergeSort RevisionDate
        (fun a b => decide (a.date ≤ b.date))
        (by intro a b c hab hbc; simp only [decide_eq_true_eq] at *; omega)
        (by intro a b; simp only [Bool.or_eq_true, decide_eq_true_eq]; omega)
        (rds.filter (fun rd => !rd.completed))
      rw [hms] at hs
      have hmin := (List.pairwise_cons.mp hs).1
      intro rd hrd hcomp
      have hrdinc : rd ∈ rds.filter (fun rd => !rd.completed) :=
        List.mem_filter.mpr ⟨hrd, by simp [hcomp]⟩
      have : rd ∈ r :: tl := hperm.mem_iff.mpr hrdinc
      rcases List.mem_cons.mp this with h | h
      · rw [h]
      · have := hmin rd h
        simpa using this

/-- Claim C10, instantiated at a two-incomplete-checkpoint topic. -/
theorem C10_next_revision_minimal_witness :
    (getNextRevision [⟨3, 2, true⟩, ⟨8, 7, false⟩, ⟨15, 14, false⟩] = none ↔
      ∀ rd ∈ [(⟨3, 2, true⟩ : RevisionDate), ⟨8, 7, false⟩, ⟨15, 14, false⟩],
        rd.completed = true) ∧
    (∀ r, getNextRevision [⟨3, 2, true⟩, ⟨8, 7, false⟩, ⟨15, 14, false⟩] = some r →
      r ∈ [(⟨3, 2, true⟩ : RevisionDate), ⟨8, 7, false⟩, ⟨15, 14, false⟩] ∧
      r.completed = false ∧
      ∀ rd ∈ [(⟨3, 2, true⟩ : RevisionDate), ⟨8, 7, false⟩, ⟨15, 14, false⟩],
        rd.completed = false → r.date ≤ rd.date) :=
  C10_next_revision_minimal [⟨3, 2, true⟩, ⟨8, 7, false⟩, ⟨15, 14, false⟩]

/-- Claim C6: marking a revision completed fails with InvalidCheckpoint
exactly on day offsets no checkpoint carries (in particular any offset
outside 2, 7, 14 when the topic's offsets respect the schedule), is
idempotent, re-marking an already completed checkpoint is a no-op, not
an error, and on success the matching checkpoint's completed flag is
set to true. -/
theorem C6_markCompleted_behavior (t : Topic) (off : Nat) :
    ((∀ c ∈ t.checkpoints, c.day_number ≠ off) →
      markCompleted t off = Except.error MarkError.InvalidCheckpoint) ∧
    ((∀ c ∈ t.checkpoints, c.day_number = 2 ∨ c.day_number = 7 ∨ c.day_number = 14) →
      ¬(off = 2 ∨ off = 7 ∨ off = 14) →
      markCompleted t off = Except.error MarkError.InvalidCheckpoint) ∧
    (∀ t1, markCompleted t off = Except.ok t1 → markCompleted t1 off = Except.ok t1) ∧
    ((∃ c ∈ t.checkpoints, c.day_number = off) →
      (∀ c ∈ t.checkpoints, c.day_number = off → c.completed = true) →
      markCompleted t off = Except.ok t) ∧
    ((∃ c ∈ t.checkpoints, c.day_number = off) →
      ∃ t1, markCompleted t off = Except.ok t1 ∧
        ∀ c ∈ t1.checkpoints, c.day_number = off → c.completed = true) := by
  have herr : (∀ c ∈ t.checkpoints, c.day_number ≠ off) →
      markCompleted t off = Except.error MarkError.InvalidCheckpoint := by
    intro h
    have hany : t.checkpoints.any (fun c => c.day_number == off) = false := by
      simp only [List.any_eq_false, beq_iff_eq]
      exact h
    simp [markCompleted, hany]
  refine ⟨herr, ?_, ?_, ?_, ?_⟩
  · intro hinv hoff
    refine herr ?_
    intro c hc hceq
    exact hoff (by rw [← hceq]; exact hinv c hc)
  · intro t1 h1
    by_cases hany : t.checkpoints.any (fun c => c.day_number == off) = true
    · simp only [markCompleted, hany, if_true, Except.ok.injEq] at h1
      subst h1
      have hpres : ∀ c : Checkpoint,
          (((if c.day_number == off then { c with completed := true } else c) :
            Checkpoint).day_number == off) = (c.day_number == off) := by
        intro c
        by_cases h : c.day_number = off <;> simp [h]
      have hany1 : (t.checkpoints.map (fun c =>
          if c.day_number == off then { c with completed := true } else c)).any
            (fun c => c.day_number == off) = true := by
        simp only [List.any_eq_true] at hany ⊢
        obtain ⟨c, hc, hpc⟩ := hany
        exact ⟨_, List.mem_map_of_mem _ hc, by rw [hpres]; exact hpc⟩
      have hmm : (t.checkpoints.map (fun c =>
            if c.day_number == off then { c with completed := true } else c)).map
          (fun c => if c.day_number == off then { c with completed := true } else c) =
          t.checkpoints.map (fun c =>
            if c.day_number == off then { c with completed := true } else c) := by
        rw [List.map_map]
        refine List.map_congr_left ?_
        intro c _
        by_cases h : c.day_number = off <;> simp [Function.comp, h]
      simp only [markCompleted]
      rw [if_pos hany1, hmm]
    · simp only [markCompleted, hany] at h1
      simp at h1
  · intro hex hcomp
    have hany : t.checkpoints.any (fun c => c.day_number == off) = true := by
      simp only [List.any_eq_true, beq_iff_eq]
      exact hex
    have hmap : t.checkpoints.map (fun c =>
        if c.day_number == off then { c with completed := true } else c) = t.checkpoints := by
      have hpt : ∀ c ∈ t.checkpoints, (if c.day_number == off then
          ({ c with completed := true } : Checkpoint) else c) = id c := by
        intro c hc
        by_cases hday : c.day_number = off
        · have hcm := hcomp c hc hday
          rcases c with ⟨cd, cdt, ccomp⟩
          simp only [id]
          simp only at hcm
          simp [hday, hcm]
        · simp [hday]
      rw [List.map_congr_left hpt, List.map_id]
    simp only [markCompleted]
    rw [if_pos hany, hmap]
  · intro hex
    have hany : t.checkpoints.any (fun c => c.day_number == off) = true := by
      simp only [List.any_eq_true, beq_iff_eq]
      exact hex
    refine ⟨_, by simp only [markCompleted]; rw [if_pos hany], ?_⟩
    intro c hc hday
    obtain ⟨c0, hc0, rfl⟩ := List.mem_map.mp hc
    by_cases h : c0.day_number = off
    · simp [h]
    · exfalso
      simp [h] at hday

/-- Claim C6, instantiated: an unknown offset errors, marking day 2 of a
fresh topic is idempotent, and re-marking the completed day 7 is a
no-op. -/
theorem C6_markCompleted_behavior_witness :
    markCompleted ⟨[⟨2, 5, false⟩, ⟨7, 10, false⟩, ⟨14, 17, false⟩]⟩ 3 =
      Except.error MarkError.InvalidCheckpoint ∧
    markCompleted ⟨[⟨2, 5, true⟩, ⟨7, 10, false⟩, ⟨14, 17, false⟩]⟩ 2 =
      Except.ok ⟨[⟨2, 5, true⟩, ⟨7, 10, false⟩, ⟨14, 17, false⟩]⟩ ∧
    markCompleted ⟨[⟨2, 5, true⟩, ⟨7, 10, true⟩, ⟨14, 17, true⟩]⟩ 7 =
      Except.ok ⟨[⟨2, 5, true⟩, ⟨7, 10, true⟩, ⟨14, 17, true⟩]⟩ ∧
    (∃ t1, markCompleted ⟨[⟨2, 5, false⟩, ⟨7, 10, false⟩, ⟨14, 17, false⟩]⟩ 2 =
      Except.ok t1 ∧ ∀ c ∈ t1.checkpoints, c.day_number = 2 → c.completed = true) :=
  ⟨(C6_markCompleted_behavior ⟨[⟨2, 5, false⟩, ⟨7, 10, false⟩, ⟨14, 17, false⟩]⟩ 3).1
      (by decide),
   (C6_markCompleted_behavior ⟨[⟨2, 5, false⟩, ⟨7, 10, false⟩, ⟨14, 17, false⟩]⟩ 2).2.2.1
      ⟨[⟨2, 5, true⟩, ⟨7, 10, false⟩, ⟨14, 17, false⟩]⟩ rfl,
   (C6_markCompleted_behavior ⟨[⟨2, 5, true⟩, ⟨7, 10, true⟩, ⟨14, 17, true⟩]⟩ 7).2.2.2.1
      (by decide) (by decide),
   (C6_markCompleted_behavior ⟨[⟨2, 5, false⟩, ⟨7, 10, false⟩, ⟨14, 17, false⟩]⟩ 2).2.2.2.2
      (by decide)⟩

/-- Splitting a checkpoint list into the entries dated at, after and
before now is a permutation of the list. -/
theorem checkpoints_date_partition_perm (cps : List Checkpoint) (now : Nat) :
    (cps.filter (fun c => c.date == now) ++ cps.filter (fun c => c.date > now) ++
      cps.filter (fun c => c.date < now)).Perm cps := by
  induction cps with
  | nil => simp
  | cons c l ih =>
    rcases Nat.lt_trichotomy c.date now with hlt | heq | hgt
    · have h1 : ¬(c.date = now) := by omega
      have h2 : ¬(c.date > now) := by omega
      simp only [List.filter_cons, beq_iff_eq, decide_eq_true_eq, h1, h2, hlt,
        if_false, if_true, decide_eq_false_iff_not, not_false_eq_true]
      exact List.Perm.trans List.perm_middle (List.Perm.cons c ih)
    · have h2 : ¬(c.date > now) := by omega
      have h3 : ¬(c.date < now) := by omega
      simp [List.filter_cons, heq, h2, h3]
      simpa using ih
    · have h1 : ¬(c.date = now) := by omega
      have h3 : ¬(c.date < now) := by omega
      simp [List.filter_cons, h1, h3, hgt]
      exact List.Perm.trans List.perm_middle (List.Perm.cons c (by simpa using ih))

/-- The three date partitions of the aggregated records permute the
unfiltered union. -/
theorem records_partition_perm (topics : List TopicCtx) (now : Nat) :
    (todayRecords topics now ++ upcomingRecords topics now ++ pastRecords topics now).Perm
      (allRecords topics) := by
  rw [← Multiset.coe_eq_coe, ← Multiset.coe_add, ← Multiset.coe_add]
  induction topics with
  | nil => simp [todayRecords, upcomingRecords, pastRecords, allRecords]
  | cons t ts ih =>
    have hone : ((t.checkpoints.filter (fun c => c.date == now)).map (recordOf t) ++
        ((t.checkpoints.filter (fun c => c.date > now)).map (recordOf t) ++
          (t.checkpoints.filter (fun c => c.date < now)).map (recordOf t))).Perm
        (t.checkpoints.map (recordOf t)) := by
      have hp := (checkpoints_date_partition_perm t.checkpoints now).map (recordOf t)
      simpa [List.map_append] using hp
    have hone' : (↑((t.checkpoints.filter (fun c => c.date == now)).map (recordOf t)) +
        (↑((t.checkpoints.filter (fun c => c.date > now)).map (recordOf t)) +
          ↑((t.checkpoints.filter (fun c => c.date < now)).map (recordOf t))) :
          Multiset AggRecord) = ↑(t.checkpoints.map (recordOf t)) := by
      rw [Multiset.coe_add, Multiset.coe_add, Multiset.coe_eq_coe]
      exact hone
    simp only [todayRecords, upcomingRecords, pastRecords, allRecords,
      List.flatMap_cons, ← Multiset.coe_add] at ih ⊢
    rw [← hone', ← ih]
    abel

/-- With three checkpoints per topic, the unfiltered union holds three
records per topic. -/
theorem allRecords_length (topics : List TopicCtx) :
    (∀ t ∈ topics, t.checkpoints.length = 3) →
      (allRecords topics).length = 3 * topics.length := by
  induction topics with
  | nil =>
    intro _
    simp [allRecords]
  | cons t ts ih =>
    intro h3
    have ht := h3 t (by simp)
    have hts : ∀ u ∈ ts, u.checkpoints.length = 3 :=
      fun u hu => h3 u (List.mem_cons_of_mem _ hu)
    have htail : (ts.flatMap (fun u => u.checkpoints.map (recordOf u))).length =
        3 * ts.length := by
      simpa [allRecords] using ih hts
    simp only [allRecords, List.flatMap_cons, List.length_append, List.length_map, ht,
      List.length_cons, htail]
    ring

/-- Claim C4: the today, upcoming and past partitions together are a
permutation of the unfiltered union of all checkpoint records — no
record lost or duplicated — and when every topic carries exactly 3
checkpoints their sizes sum to three records per topic, independent of
completion state. -/
theorem C4_partition_no_loss (topics : List TopicCtx) (now : Nat)
    (h3 : ∀ t ∈ topics, t.checkpoints.length = 3) :
    (todayRecords topics now ++ upcomingRecords topics now ++ pastRecords topics now).Perm
      (allRecords topics) ∧
    (todayRecords topics now).length + (upcomingRecords topics now).length +
      (pastRecords topics now).length = 3 * topics.length := by
  refine ⟨records_partition_perm topics now, ?_⟩
  have hlen := (records_partition_perm topics now).length_eq
  simp only [List.length_append] at hlen
  rw [hlen, allRecords_length topics h3]

/-- Claim C4, instantiated at two topics of three checkpoints each. -/
theorem C4_partition_no_loss_witness :
    ((todayRecords [⟨"t1", "A", "s1", "S", "", generate 0⟩,
        ⟨"t2", "B", "s1", "S", "", generate 5⟩] 7 ++
      upcomingRecords [⟨"t1", "A", "s1", "S", "", generate 0⟩,
        ⟨"t2", "B", "s1", "S", "", generate 5⟩] 7 ++
      pastRecords [⟨"t1", "A", "s1", "S", "", generate 0⟩,
        ⟨"t2", "B", "s1", "S", "", generate 5⟩] 7).Perm
      (allRecords [⟨"t1", "A", "s1", "S", "", generate 0⟩,
        ⟨"t2", "B", "s1", "S", "", generate 5⟩])) ∧
    (todayRecords [⟨"t1", "A", "s1", "S", "", generate 0⟩,
        ⟨"t2", "B", "s1", "S", "", generate 5⟩] 7).length +
      (upcomingRecords [⟨"t1", "A", "s1", "S", "", generate 0⟩,
        ⟨"t2", "B", "s1", "S", "", generate 5⟩] 7).length +
      (pastRecords [⟨"t1", "A", "s1", "S", "", generate 0⟩,
        ⟨"t2", "B", "s1", "S", "", generate 5⟩] 7).length =
      3 * ([⟨"t1", "A", "s1", "S", "", generate 0⟩,
        ⟨"t2", "B", "s1", "S", "", generate 5⟩] : List TopicCtx).length :=
  C4_partition_no_loss
    [⟨"t1", "A", "s1", "S", "", generate 0⟩, ⟨"t2", "B", "s1", "S", "", generate 5⟩] 7
    (by decide)

/-- In any built marker map, an entry's selected flag is present exactly
when its key is the selected date. -/
theorem markedDates_selected_formula (revs : List Revision) (sel today k : String)
    (mk : Marker) (h : markedDates revs sel today k = some mk) :
    mk.selected = if k = sel then some true else none := by
  simp only [markedDates, withTodayMark, withSelectedMark, revisionMarks] at h
  by_cases h1 : k = today <;> by_cases h2 : k = sel
  · rw [← h1, ← h2] at h
    rw [if_pos rfl] at h
    rw [if_pos rfl] at h
    by_cases hm : k ∈ revs.map (fun r => r.revision_date) <;>
      simp [hm] at h <;> simp [← h, h2]
  · rw [← h1] at h
    rw [if_pos rfl] at h
    rw [if_neg h2] at h
    by_cases hm : k ∈ revs.map (fun r => r.revision_date) <;>
      simp [hm, h2] at h <;> simp [← h, h2]
  · rw [← h2] at h
    rw [if_neg h1] at h
    rw [if_pos rfl] at h
    by_cases hm : k ∈ revs.map (fun r => r.revision_date) <;>
      simp [hm] at h <;> simp [← h, h2]
  · rw [if_neg h1, if_neg h2] at h
    by_cases hm : k ∈ revs.map (fun r => r.revision_date) <;> simp [hm, h2] at h
    simp [← h, h2]

/-- Claim C3: the built calendar map always has an entry for the
selected date and for today, even over an empty record set, and every
date occurring in the records has an entry flagged as having
revisions. -/
theorem C3_calendar_entry_coverage (revs : List Revision) (sel today : String) :
    (markedDates revs sel today sel).isSome = true ∧
    (markedDates revs sel today today).isSome = true ∧
    (∀ r ∈ revs, ∃ mk, markedDates revs sel today r.revision_date = some mk ∧
      mk.marked = some true) := by
  refine ⟨?_, ?_, ?_⟩
  · simp only [markedDates, withTodayMark, withSelectedMark]
    by_cases h : sel = today <;> simp [h]
  · simp [markedDates, withTodayMark]
  · intro r hr
    have hd : r.revision_date ∈ revs.map (fun r => r.revision_date) :=
      List.mem_map_of_mem _ hr
    simp only [markedDates, withTodayMark, withSelectedMark, revisionMarks]
    by_cases h1 : r.revision_date = today <;> by_cases h2 : r.revision_date = sel
    · rw [← h1, ← h2]
      simp [hd]
    · rw [← h1]
      simp [hd, h2]
    · rw [← h2]
      simp [hd, h1]
    · simp [hd, h1, h2]

/-- Claim C3, instantiated at an empty record set and at a one-record
set covering the marked-date rule. -/
theorem C3_calendar_entry_coverage_witness :
    (markedDates [] "2024-01-05" "2024-01-04" "2024-01-05").isSome = true ∧
    (markedDates [] "2024-01-05" "2024-01-04" "2024-01-04").isSome = true ∧
    (∃ mk, markedDates [rec20240103a] "2024-01-05" "2024-01-04"
      rec20240103a.revision_date = some mk ∧ mk.marked = some true) :=
  ⟨(C3_calendar_entry_coverage [] "2024-01-05" "2024-01-04").1,
   (C3_calendar_entry_coverage [] "2024-01-05" "2024-01-04").2.1,
   (C3_calendar_entry_coverage [rec20240103a] "2024-01-05" "2024-01-04").2.2
     rec20240103a (by decide)⟩

/-- Claim C7: the initial selection is today's date, selecting a day
replaces the selection, the built map always carries the selected flag
at the selected date, an entry carries the selected flag exactly when
its key is the selected date (so exactly one entry is selected), and
after a transition the previously selected date's entry no longer
carries the flag. -/
theorem C7_selection_state (revs : List Revision) (sel today newDate k : String) :
    initialSelectedDate today = today ∧
    selectDate sel newDate = newDate ∧
    (∃ mk, markedDates revs sel today sel = some mk ∧ mk.selected = some true) ∧
    (∀ mk, markedDates revs sel today k = some mk → (mk.selected = some true ↔ k = sel)) ∧
    (∀ mk, sel ≠ newDate →
      markedDates revs (selectDate sel newDate) today sel = some mk →
      mk.selected ≠ some true) := by
  refine ⟨rfl, rfl, ?_, ?_, ?_⟩
  · have hs : (markedDates revs sel today sel).isSome = true := by
      simp only [markedDates, withTodayMark, withSelectedMark]
      by_cases h : sel = today <;> simp [h]
    obtain ⟨mk, hmk⟩ := Option.isSome_iff_exists.mp hs
    refine ⟨mk, hmk, ?_⟩
    have hf := markedDates_selected_formula revs sel today sel mk hmk
    simpa using hf
  · intro mk h
    have hf := markedDates_selected_formula revs sel today k mk h
    constructor
    · intro hsel
      by_contra hk
      rw [if_neg hk] at hf
      rw [hf] at hsel
      exact Option.noConfusion hsel
    · intro hk
      rw [if_pos hk] at hf
      exact hf
  · intro mk hne h
    have hf := markedDates_selected_formula revs newDate today sel mk h
    rw [if_neg hne] at hf
    rw [hf]
    exact fun hc => Option.noConfusion hc

/-- Claim C7, instantiated at a one-record set with a selection change
from 2024-01-03 to 2024-01-08. -/
theorem C7_selection_state_witness :
    initialSelectedDate "2024-01-04" = "2024-01-04" ∧
    selectDate "2024-01-03" "2024-01-08" = "2024-01-08" ∧
    (∃ mk, markedDates [rec20240103a] "2024-01-03" "2024-01-04" "2024-01-03" = some mk ∧
      mk.selected = some true) ∧
    ((⟨some true, some "#3b82f6", some true, some "#3b82f6", false⟩ : Marker).selected =
      some true ↔ "2024-01-03" = "2024-01-03") ∧
    (⟨some true, some "#3b82f6", none, none, false⟩ : Marker).selected ≠ some true :=
  ⟨(C7_selection_state [rec20240103a] "2024-01-03" "2024-01-04" "2024-01-08"
      "2024-01-03").1,
   (C7_selection_state [rec20240103a] "2024-01-03" "2024-01-04" "2024-01-08"
      "2024-01-03").2.1,
   (C7_selection_state [rec20240103a] "2024-01-03" "2024-01-04" "2024-01-08"
      "2024-01-03").2.2.1,
   (C7_selection_state [rec20240103a] "2024-01-03" "2024-01-04" "2024-01-08"
      "2024-01-03").2.2.2.1 ⟨some true, some "#3b82f6", some true, some "#3b82f6", false⟩
      (by decide),
   (C7_selection_state [rec20240103a] "2024-01-03" "2024-01-04" "2024-01-08"
      "2024-01-03").2.2.2.2 ⟨some true, some "#3b82f6", none, none, false⟩
      (by decide) (by decide)⟩

end StudyBuddy
